import Mathlib

/-!
Shallow embedding of the token-lifecycle logic of `src/app.js`
(Express routes `/get-token`, `/callback` and the internal
`refreshToken` function) from the `token_provider` repository.

The persistent `user_tokens` table is modelled as a list of rows; the
Supabase query `select ... .eq('user_id', uid).order('created_at',
descending).limit(1).single()` becomes `fetchLatest`, the write
`.update({...}).eq('user_id', uid)` becomes `updateByUserId` (note: it
touches every row with that `user_id`, not only the latest), and the
provider's HTTP response to the refresh grant is an explicit
`ProviderResponse` value.  Thrown JavaScript exceptions become the
`RefreshResult.thrown` constructor; the `try/catch` in the route handler
becomes the corresponding `match`.  Current time (`Math.floor(Date.now()
/ 1000)`) is a `now : Nat` parameter.
-/

/-- One row of the `user_tokens` table. -/
structure TokenRecord where
  user_id : String
  access_token : String
  refresh_token : String
  expires_at : Nat
  created_at : Nat
  deriving DecidableEq

/-- The `user_tokens` table. -/
abbrev Store := List TokenRecord

/-- Fold step selecting the row with the largest `created_at`
(the `.order('created_at', descending).limit(1)` pattern). -/
def pickLater (acc : Option TokenRecord) (r : TokenRecord) : Option TokenRecord :=
  match acc with
  | none => some r
  | some b => if b.created_at < r.created_at then some r else some b

/-- Row with maximal `created_at` of a list, `none` on the empty list. -/
def latestOf (l : List TokenRecord) : Option TokenRecord :=
  l.foldl pickLater none

/-- The latest-row lookup used by both `/get-token` and `refreshToken`:
rows of the user, ordered by `created_at` descending, limit 1, single. -/
def fetchLatest (store : Store) (uid : String) : Option TokenRecord :=
  latestOf (store.filter (fun r => r.user_id == uid))

/-- Per-row effect of the refresh write: a row whose `user_id` matches
gets the three token fields replaced, any other row is unchanged. -/
def updFun (uid a rt : String) (e : Nat) (rec : TokenRecord) : TokenRecord :=
  if rec.user_id == uid then
    { rec with access_token := a, refresh_token := rt, expires_at := e }
  else rec

/-- The `supabaseAdmin.from('user_tokens').update({...}).eq('user_id', uid)`
write: every row with this `user_id` receives the new field values. -/
def updateByUserId (store : Store) (uid a rt : String) (e : Nat) : Store :=
  store.map (updFun uid a rt e)

/-- JavaScript `x || y` for an optional string: absent (`undefined`) and
the empty string are falsy, so both fall back to `y`. -/
def jsOrElse (x : Option String) (y : String) : String :=
  match x with
  | none => y
  | some s => if s == "" then y else s

/-- The provider token endpoint's reply to the refresh-grant POST:
`ok` is `response.ok` (2xx status); the body's `refresh_token` field may
be absent. -/
structure ProviderResponse where
  ok : Bool
  access_token : String
  refresh_token : Option String
  expires_at : Nat
  deriving DecidableEq

/-- The object `refreshToken` returns on success, `{ message,
access_token }`; reading `.error` on it yields `undefined` (`none`). -/
structure RefreshOk where
  message : String
  access_token : String
  error : Option String := none
  deriving DecidableEq

/-- Outcome of a `refreshToken` call: a returned object, or a thrown
`Error` carrying its message. -/
inductive RefreshResult where
  | ok (r : RefreshOk)
  | thrown (msg : String)
  deriving DecidableEq

/-- Result of running `refreshToken`: its outcome, the table afterwards,
and how many provider HTTP calls and persistence update calls it made. -/
structure RefreshStep where
  result : RefreshResult
  store : Store
  providerCalls : Nat
  writes : Nat
  deriving DecidableEq

/-- Shallow embedding of `async function refreshToken(user_id)`
(src/app.js lines 138-194).  `provider` is the response the token
endpoint would give; `dbFail` says whether the persistence update call
would be rejected (`dbError` truthy). -/
def refreshToken (store : Store) (provider : ProviderResponse) (dbFail : Bool)
    (uid : String) : RefreshStep :=
  match fetchLatest store uid with
  | none => ⟨.thrown "Tokens not found for user", store, 0, 0⟩
  | some userToken =>
    if provider.ok then
      if dbFail then
        ⟨.thrown "Failed to update tokens", store, 1, 1⟩
      else
        ⟨.ok ⟨"Token refreshed successfully.", provider.access_token, none⟩,
          updateByUserId store uid provider.access_token
            (jsOrElse provider.refresh_token userToken.refresh_token)
            provider.expires_at,
          1, 1⟩
    else
      ⟨.thrown "Failed to refresh token", store, 1, 0⟩

/-- JSON body of an HTTP reply from `/get-token`; absent fields are
`none`. -/
structure JsonBody where
  access_token : Option String := none
  expires_at : Option Nat := none
  message : Option String := none
  error : Option String := none
  deriving DecidableEq

/-- HTTP reply: status code and JSON body. -/
structure HttpResponse where
  status : Nat
  body : JsonBody
  deriving DecidableEq

/-- Result of one `/get-token` request: the reply, the table afterwards,
and the number of provider calls and persistence update calls made. -/
structure GetTokenStep where
  resp : HttpResponse
  store : Store
  providerCalls : Nat
  writes : Nat
  deriving DecidableEq

/-- Shallow embedding of `router.get('/get-token')` (src/app.js lines
94-135). `now` is `Math.floor(Date.now() / 1000)`.  A thrown exception
from `refreshToken` lands in the route's `catch`, which answers 500
`Failed to retrieve tokens`. -/
def getValidToken (store : Store) (provider : ProviderResponse) (dbFail : Bool)
    (uid : String) (now : Nat) : GetTokenStep :=
  match fetchLatest store uid with
  | none => ⟨⟨404, { error := some "Tokens not found for user" }⟩, store, 0, 0⟩
  | some userToken =>
    if userToken.expires_at > now then
      ⟨⟨200, { access_token := some userToken.access_token,
               expires_at := some userToken.expires_at }⟩, store, 0, 0⟩
    else
      match refreshToken store provider dbFail uid with
      | ⟨.thrown _, store2, pc, w⟩ =>
        ⟨⟨500, { error := some "Failed to retrieve tokens" }⟩, store2, pc, w⟩
      | ⟨.ok r, store2, pc, w⟩ =>
        match r.error with
        | some _ =>
          ⟨⟨500, { error := some "Failed to refresh token" }⟩, store2, pc, w⟩
        | none =>
          ⟨⟨200, { access_token := some r.access_token,
                   message := some "Token refreshed and retrieved successfully." }⟩,
            store2, pc, w⟩

/-- Test whether a reply is the 500 `Failed to refresh token` answer of
the `refreshResponse.error` branch in the `/get-token` handler. -/
def hasRefreshFailBody (resp : HttpResponse) : Bool :=
  resp.status == 500 && resp.body.error == some "Failed to refresh token"

/-- Session object produced by `exchangeCodeForSession`. -/
structure Session where
  user_id : String
  access_token : String
  refresh_token : String
  expires_at : Nat
  deriving DecidableEq

/-- Reply of the `/callback` route. -/
inductive CallbackResp where
  | redirect (target : String)
  | jsonError (status : Nat) (msg : String)
  deriving DecidableEq

/-- Result of one `/callback` request: the reply, the table afterwards,
the number of code-exchange calls and of persistence write calls. -/
structure CallbackStep where
  resp : CallbackResp
  store : Store
  exchangeCalls : Nat
  writes : Nat
  deriving DecidableEq

/-- The `upsert` of the callback route: no conflict target is given, so a
new row is inserted with a fresh `created_at`. -/
def upsertRow (store : Store) (s : Session) (createdAt : Nat) : Store :=
  store ++ [⟨s.user_id, s.access_token, s.refresh_token, s.expires_at, createdAt⟩]

/-- Shallow embedding of `router.get('/callback')` (src/app.js lines
64-92).  `exchange` models `supabase.auth.exchangeCodeForSession`;
`code` is the `code` query parameter, absent when `none`. -/
def callback (store : Store) (exchange : String → Option Session) (dbFail : Bool)
    (createdAt : Nat) (code : Option String) : CallbackStep :=
  match code with
  | none => ⟨.redirect "/", store, 0, 0⟩
  | some c =>
    match exchange c with
    | none => ⟨.jsonError 500 "Failed to exchange code", store, 1, 0⟩
    | some s =>
      if dbFail then ⟨.jsonError 500 "Failed to save tokens", store, 1, 1⟩
      else ⟨.redirect "/", upsertRow store s createdAt, 1, 1⟩

/-! Helper lemmas about the latest-row lookup and the user-wide update. -/

theorem updFun_user_id (uid a rt : String) (e : Nat) (rec : TokenRecord) :
    (updFun uid a rt e rec).user_id = rec.user_id := by
  unfold updFun; split <;> rfl

theorem updFun_created_at (uid a rt : String) (e : Nat) (rec : TokenRecord) :
    (updFun uid a rt e rec).created_at = rec.created_at := by
  unfold updFun; split <;> rfl

theorem pickLater_map (f : TokenRecord → TokenRecord)
    (hf : ∀ r, (f r).created_at = r.created_at) (acc : Option TokenRecord)
    (r : TokenRecord) :
    pickLater (Option.map f acc) (f r) = Option.map f (pickLater acc r) := by
  cases acc with
  | none => rfl
  | some b =>
    simp only [Option.map_some', pickLater, hf]
    split <;> rfl

theorem foldl_pickLater_map (f : TokenRecord → TokenRecord)
    (hf : ∀ r, (f r).created_at = r.created_at) :
    ∀ (l : List TokenRecord) (acc : Option TokenRecord),
      (l.map f).foldl pickLater (Option.map f acc) =
        Option.map f (l.foldl pickLater acc) := by
  intro l
  induction l with
  | nil => intro acc; rfl
  | cons x xs ih =>
    intro acc
    simp only [List.map_cons, List.foldl_cons]
    rw [pickLater_map f hf acc x, ih (pickLater acc x)]

theorem latestOf_map (f : TokenRecord → TokenRecord)
    (hf : ∀ r, (f r).created_at = r.created_at) (l : List TokenRecord) :
    latestOf (l.map f) = Option.map f (latestOf l) :=
  foldl_pickLater_map f hf l none

theorem filter_user_map (f : TokenRecord → TokenRecord)
    (hf : ∀ r, (f r).user_id = r.user_id) (uid : String) :
    ∀ l : List TokenRecord,
      (l.map f).filter (fun r => r.user_id == uid) =
        (l.filter (fun r => r.user_id == uid)).map f := by
  intro l
  induction l with
  | nil => rfl
  | cons x xs ih =>
    cases hx : (x.user_id == uid) <;>
      simp [List.filter_cons, hf, hx, ih]

theorem fetchLatest_map (f : TokenRecord → TokenRecord)
    (hfc : ∀ r, (f r).created_at = r.created_at)
    (hfu : ∀ r, (f r).user_id = r.user_id) (store : Store) (uid : String) :
    fetchLatest (store.map f) uid = Option.map f (fetchLatest store uid) := by
  unfold fetchLatest
  rw [filter_user_map f hfu uid store, latestOf_map f hfc]

theorem fetchLatest_updateByUserId (store : Store) (uid a rt : String) (e : Nat) :
    fetchLatest (updateByUserId store uid a rt e) uid =
      Option.map (updFun uid a rt e) (fetchLatest store uid) :=
  fetchLatest_map _ (updFun_created_at uid a rt e) (updFun_user_id uid a rt e)
    store uid

theorem foldl_pickLater_mem :
    ∀ (l : List TokenRecord) (acc : Option TokenRecord) (r : TokenRecord),
      l.foldl pickLater acc = some r → r ∈ l ∨ acc = some r := by
  intro l
  induction l with
  | nil => intro acc r h; right; exact h
  | cons x xs ih =>
    intro acc r h
    rcases ih (pickLater acc x) r h with hm | he
    · left; exact List.mem_cons_of_mem x hm
    · cases acc with
      | none =>
        simp only [pickLater] at he
        injection he with he
        left; rw [← he]; exact List.mem_cons_self x xs
      | some b =>
        simp only [pickLater] at he
        split at he
        · injection he with he
          left; rw [← he]; exact List.mem_cons_self x xs
        · right; exact he

theorem fetchLatest_user_id (store : Store) (uid : String) (rec : TokenRecord)
    (h : fetchLatest store uid = some rec) : (rec.user_id == uid) = true := by
  unfold fetchLatest latestOf at h
  rcases foldl_pickLater_mem _ none rec h with hm | he
  · exact (List.mem_filter.mp hm).2
  · cases he

theorem refreshOk_error_none (store : Store) (provider : ProviderResponse)
    (dbFail : Bool) (uid : String) (r : RefreshOk)
    (hr : (refreshToken store provider dbFail uid).result = .ok r) :
    r.error = none := by
  unfold refreshToken at hr
  cases hfl : fetchLatest store uid <;> rw [hfl] at hr
  · simp at hr
  · cases hok : provider.ok <;> cases hdb : dbFail <;>
      simp [hok, hdb] at hr
    all_goals rw [← hr]

/-! Claim theorems. -/

/-- Claim C6: for a user with no stored record, GET /get-token answers
404 with an error body, leaves the table unchanged and performs zero
provider calls and zero writes. -/
theorem c6_no_record_404 (store : Store) (provider : ProviderResponse)
    (dbFail : Bool) (uid : String) (now : Nat)
    (h : fetchLatest store uid = none) :
    getValidToken store provider dbFail uid now =
      ⟨⟨404, { error := some "Tokens not found for user" }⟩, store, 0, 0⟩ := by
  unfold getValidToken
  rw [h]

/-- Witness for C6 at the empty table. -/
theorem c6_no_record_404_witness :
    getValidToken [] ⟨true, "A2", some "R2", 2000⟩ false "u" 5 =
      ⟨⟨404, { error := some "Tokens not found for user" }⟩, [], 0, 0⟩ :=
  c6_no_record_404 [] ⟨true, "A2", some "R2", 2000⟩ false "u" 5 (by decide)

/-- Claim C5: when the stored latest record has `expires_at` strictly
greater than `now`, GET /get-token returns the stored `access_token` and
`expires_at`, leaves the table unchanged and performs zero provider
calls and zero writes. -/
theorem c5_fresh_no_effects (store : Store) (provider : ProviderResponse)
    (dbFail : Bool) (uid : String) (now : Nat) (rec : TokenRecord)
    (h : fetchLatest store uid = some rec) (hfresh : rec.expires_at > now) :
    getValidToken store provider dbFail uid now =
      ⟨⟨200, { access_token := some rec.access_token,
               expires_at := some rec.expires_at }⟩, store, 0, 0⟩ := by
  unfold getValidToken
  rw [h]
  simp [hfresh]

/-- Witness for C5 with a record expiring at 1000 read at 999. -/
theorem c5_fresh_no_effects_witness :
    getValidToken [⟨"u", "A1", "R1", 1000, 1⟩] ⟨true, "A2", some "R2", 2000⟩
        false "u" 999 =
      ⟨⟨200, { access_token := some "A1", expires_at := some 1000 }⟩,
        [⟨"u", "A1", "R1", 1000, 1⟩], 0, 0⟩ :=
  c5_fresh_no_effects [⟨"u", "A1", "R1", 1000, 1⟩] ⟨true, "A2", some "R2", 2000⟩
    false "u" 999 ⟨"u", "A1", "R1", 1000, 1⟩ (by decide) (by decide)

/-- Claim C3: when a record exists and the provider answers a
non-success HTTP status, `refreshToken` throws, makes exactly one
provider call, attempts no persistence write, and the table is
unchanged. -/
theorem c3_provider_failure_no_write (store : Store)
    (provider : ProviderResponse) (dbFail : Bool) (uid : String)
    (rec : TokenRecord) (h : fetchLatest store uid = some rec)
    (hbad : provider.ok = false) :
    refreshToken store provider dbFail uid =
      ⟨.thrown "Failed to refresh token", store, 1, 0⟩ := by
  unfold refreshToken
  rw [h]
  simp [hbad]

/-- Witness for C3 with one stored record and a failing provider. -/
theorem c3_provider_failure_no_write_witness :
    refreshToken [⟨"u", "A1", "R1", 10, 1⟩] ⟨false, "A2", some "R2", 2000⟩
        false "u" =
      ⟨.thrown "Failed to refresh token", [⟨"u", "A1", "R1", 10, 1⟩], 1, 0⟩ :=
  c3_provider_failure_no_write [⟨"u", "A1", "R1", 10, 1⟩]
    ⟨false, "A2", some "R2", 2000⟩ false "u" ⟨"u", "A1", "R1", 10, 1⟩
    (by decide) (by decide)

/-- Claim C1: with a stored latest record, GET /get-token answers with
the stored token as valid exactly when `expires_at` is strictly greater
than `now`; when `expires_at = now` the refresh path is taken (one
provider call is made). -/
theorem c1_strict_expiry (store : Store) (provider : ProviderResponse)
    (dbFail : Bool) (uid : String) (now : Nat) (rec : TokenRecord)
    (h : fetchLatest store uid = some rec) :
    ((getValidToken store provider dbFail uid now).resp =
        ⟨200, { access_token := some rec.access_token,
                expires_at := some rec.expires_at }⟩
      ↔ rec.expires_at > now)
    ∧ (rec.expires_at = now →
        (getValidToken store provider dbFail uid now).providerCalls = 1) := by
  unfold getValidToken refreshToken
  rw [h]
  by_cases hlt : rec.expires_at > now
  · simp only [hlt, if_true]
    constructor
    · simp [hlt]
    · intro heq; omega
  · simp only [hlt, if_false]
    cases hok : provider.ok <;> cases hdb : dbFail <;>
      simp [hok, hdb, hlt, HttpResponse.mk.injEq, JsonBody.mk.injEq]

/-- Witness for C1 with a record expiring at 1000 read at time 999. -/
theorem c1_strict_expiry_witness :
    ((getValidToken [⟨"u", "A1", "R1", 1000, 1⟩] ⟨true, "A2", some "R2", 2000⟩
          false "u" 999).resp =
        ⟨200, { access_token := some "A1", expires_at := some 1000 }⟩
      ↔ (1000 : Nat) > 999)
    ∧ ((1000 : Nat) = 999 →
        (getValidToken [⟨"u", "A1", "R1", 1000, 1⟩] ⟨true, "A2", some "R2", 2000⟩
            false "u" 999).providerCalls = 1) :=
  c1_strict_expiry [⟨"u", "A1", "R1", 1000, 1⟩] ⟨true, "A2", some "R2", 2000⟩
    false "u" 999 ⟨"u", "A1", "R1", 1000, 1⟩ (by decide)

/-- Claim C7: with a stored record already expired (`expires_at ≤ now`)
and a successful provider refresh with the persistence update accepted,
GET /get-token makes exactly one provider call and one persistence
update, and answers 200 with the provider's new `access_token` and the
refreshed-case message. -/
theorem c7_expired_refresh_success (store : Store)
    (provider : ProviderResponse) (uid : String) (now : Nat)
    (rec : TokenRecord) (h : fetchLatest store uid = some rec)
    (hexp : rec.expires_at ≤ now) (hok : provider.ok = true) :
    (getValidToken store provider false uid now).providerCalls = 1
    ∧ (getValidToken store provider false uid now).writes = 1
    ∧ (getValidToken store provider false uid now).resp =
        ⟨200, { access_token := some provider.access_token,
                message := some "Token refreshed and retrieved successfully." }⟩ := by
  unfold getValidToken refreshToken
  rw [h]
  have hnot : ¬ (rec.expires_at > now) := by omega
  simp [hnot, hok]

/-- Witness for C7: record expired at 1000 read at time 1000, provider
answers a fresh token. -/
theorem c7_expired_refresh_success_witness :
    (getValidToken [⟨"u", "A1", "R1", 1000, 1⟩] ⟨true, "A2", some "R2", 2000⟩
        false "u" 1000).providerCalls = 1
    ∧ (getValidToken [⟨"u", "A1", "R1", 1000, 1⟩] ⟨true, "A2", some "R2", 2000⟩
        false "u" 1000).writes = 1
    ∧ (getValidToken [⟨"u", "A1", "R1", 1000, 1⟩] ⟨true, "A2", some "R2", 2000⟩
        false "u" 1000).resp =
        ⟨200, { access_token := some "A2",
                message := some "Token refreshed and retrieved successfully." }⟩ :=
  c7_expired_refresh_success [⟨"u", "A1", "R1", 1000, 1⟩]
    ⟨true, "A2", some "R2", 2000⟩ "u" 1000 ⟨"u", "A1", "R1", 1000, 1⟩
    (by decide) (by decide) (by decide)

/-- Claim C4: when the provider's successful refresh reply has no
`refresh_token` field, the update writes the previously stored
`refresh_token` back, and the latest record afterwards carries the
provider's `access_token` and `expires_at` with the old
`refresh_token`. -/
theorem c4_omitted_refresh_token_retained (store : Store)
    (provider : ProviderResponse) (uid : String) (rec : TokenRecord)
    (h : fetchLatest store uid = some rec) (hok : provider.ok = true)
    (habsent : provider.refresh_token = none) :
    fetchLatest (refreshToken store provider false uid).store uid =
      some { rec with access_token := provider.access_token,
                      refresh_token := rec.refresh_token,
                      expires_at := provider.expires_at } := by
  unfold refreshToken
  rw [h]
  simp only [hok, if_true, Bool.false_eq_true, if_false]
  rw [fetchLatest_updateByUserId, h]
  simp [habsent, jsOrElse, updFun, fetchLatest_user_id store uid rec h]

/-- Witness for C4: stored refresh token R1 is kept when the provider
omits the field. -/
theorem c4_omitted_refresh_token_retained_witness :
    fetchLatest (refreshToken [⟨"u", "A1", "R1", 10, 1⟩]
        ⟨true, "A2", none, 2000⟩ false "u").store "u" =
      some ⟨"u", "A2", "R1", 2000, 1⟩ :=
  c4_omitted_refresh_token_retained [⟨"u", "A1", "R1", 10, 1⟩]
    ⟨true, "A2", none, 2000⟩ "u" ⟨"u", "A1", "R1", 10, 1⟩
    (by decide) (by decide) (by decide)

/-- Claim C10: when the provider's successful refresh reply carries a
present but falsy `refresh_token` (the empty string), the `||` fallback
keeps the previously stored `refresh_token` as well. -/
theorem c10_empty_refresh_token_retained (store : Store)
    (provider : ProviderResponse) (uid : String) (rec : TokenRecord)
    (h : fetchLatest store uid = some rec) (hok : provider.ok = true)
    (hempty : provider.refresh_token = some "") :
    fetchLatest (refreshToken store provider false uid).store uid =
      some { rec with access_token := provider.access_token,
                      refresh_token := rec.refresh_token,
                      expires_at := provider.expires_at } := by
  unfold refreshToken
  rw [h]
  simp only [hok, if_true, Bool.false_eq_true, if_false]
  rw [fetchLatest_updateByUserId, h]
  simp [hempty, jsOrElse, updFun, fetchLatest_user_id store uid rec h]

/-- Witness for C10: stored refresh token R1 is kept when the provider
sends the empty string. -/
theorem c10_empty_refresh_token_retained_witness :
    fetchLatest (refreshToken [⟨"u", "A1", "R1", 10, 1⟩]
        ⟨true, "A2", some "", 2000⟩ false "u").store "u" =
      some ⟨"u", "A2", "R1", 2000, 1⟩ :=
  c10_empty_refresh_token_retained [⟨"u", "A1", "R1", 10, 1⟩]
    ⟨true, "A2", some "", 2000⟩ "u" ⟨"u", "A1", "R1", 10, 1⟩
    (by decide) (by decide) (by decide)

/-- Claim C2 counterexample: with two records for user `u` (older one
created at 1, latest at 2), a successful refresh changes the older
record too — the write filters on `user_id` alone, so the older row is
not left unchanged. -/
theorem c2_older_record_changed :
    ¬ ((refreshToken [⟨"u", "A1", "R1", 10, 1⟩, ⟨"u", "A2", "R2", 20, 2⟩]
          ⟨true, "A3", some "R3", 2000⟩ false "u").store.head? =
        some ⟨"u", "A1", "R1", 10, 1⟩) := by decide

/-- Claim C2 amended: on a successful refresh the write overwrites the
token fields of every record whose `user_id` matches (using the latest
record's `refresh_token` as the `||` fallback), and records of other
users are unchanged. -/
theorem c2_update_hits_all_user_rows (store : Store)
    (provider : ProviderResponse) (uid : String) (rec : TokenRecord)
    (h : fetchLatest store uid = some rec) (hok : provider.ok = true) :
    (refreshToken store provider false uid).store =
      store.map (fun r =>
        if r.user_id == uid then
          { r with access_token := provider.access_token,
                   refresh_token := jsOrElse provider.refresh_token
                                      rec.refresh_token,
                   expires_at := provider.expires_at }
        else r)
    ∧ ∀ r ∈ store, r.user_id ≠ uid →
        r ∈ (refreshToken store provider false uid).store := by
  unfold refreshToken
  rw [h]
  simp only [hok, if_true, Bool.false_eq_true, if_false]
  constructor
  · rfl
  · intro r hr hne
    refine List.mem_map.mpr ⟨r, hr, ?_⟩
    have hb : (r.user_id == uid) = false := beq_eq_false_iff_ne.mpr hne
    simp [updateByUserId, updFun, hb]

/-- Witness for the amended C2 on a table with two rows of user `u` and
one row of user `v`. -/
theorem c2_update_hits_all_user_rows_witness :
    (refreshToken [⟨"u", "A1", "R1", 10, 1⟩, ⟨"u", "A2", "R2", 20, 2⟩,
          ⟨"v", "B1", "S1", 30, 3⟩] ⟨true, "A3", some "R3", 2000⟩
        false "u").store =
      [⟨"u", "A1", "R1", 10, 1⟩, ⟨"u", "A2", "R2", 20, 2⟩,
          ⟨"v", "B1", "S1", 30, 3⟩].map (fun r =>
        if r.user_id == "u" then
          { r with access_token := "A3",
                   refresh_token := jsOrElse (some "R3") "R2",
                   expires_at := 2000 }
        else r)
    ∧ ∀ r ∈ [⟨"u", "A1", "R1", 10, 1⟩, ⟨"u", "A2", "R2", 20, 2⟩,
          (⟨"v", "B1", "S1", 30, 3⟩ : TokenRecord)], r.user_id ≠ "u" →
        r ∈ (refreshToken [⟨"u", "A1", "R1", 10, 1⟩, ⟨"u", "A2", "R2", 20, 2⟩,
            ⟨"v", "B1", "S1", 30, 3⟩] ⟨true, "A3", some "R3", 2000⟩
          false "u").store :=
  c2_update_hits_all_user_rows [⟨"u", "A1", "R1", 10, 1⟩,
      ⟨"u", "A2", "R2", 20, 2⟩, ⟨"v", "B1", "S1", 30, 3⟩]
    ⟨true, "A3", some "R3", 2000⟩ "u" ⟨"u", "A2", "R2", 20, 2⟩
    (by decide) (by decide)

/-- Claim C9: a `/callback` request without a `code` query parameter
performs no exchange and no write and just redirects to `/`. -/
theorem c9_callback_without_code (store : Store)
    (exchange : String → Option Session) (dbFail : Bool) (createdAt : Nat) :
    callback store exchange dbFail createdAt none =
      ⟨.redirect "/", store, 0, 0⟩ := rfl

/-- Claim C8: `refreshToken` either throws or returns an object whose
`error` field is absent, so the `refreshResponse.error` branch answering
500 `Failed to refresh token` is unreachable; a refresh failure reaches
the handler's catch instead, answering 500 `Failed to retrieve
tokens`. -/
theorem c8_error_branch_unreachable (store : Store)
    (provider : ProviderResponse) (dbFail : Bool) (uid : String) (now : Nat) :
    (∀ r, (refreshToken store provider dbFail uid).result = .ok r →
        r.error = none)
    ∧ hasRefreshFailBody (getValidToken store provider dbFail uid now).resp
        = false
    ∧ (∀ rec msg, fetchLatest store uid = some rec → rec.expires_at ≤ now →
        (refreshToken store provider dbFail uid).result = .thrown msg →
        (getValidToken store provider dbFail uid now).resp =
          ⟨500, { error := some "Failed to retrieve tokens" }⟩) := by
  refine ⟨fun r hr => refreshOk_error_none store provider dbFail uid r hr,
    ?_, ?_⟩
  · unfold getValidToken
    cases hfl : fetchLatest store uid with
    | none => rfl
    | some rec =>
      by_cases hexp : rec.expires_at > now
      · simp [hexp, hasRefreshFailBody]
      · simp only [hexp, if_false]
        rcases hrt : refreshToken store provider dbFail uid with ⟨res, st2, pc, w⟩
        cases res with
        | thrown m => simp [hasRefreshFailBody]
        | ok r =>
          have herr : r.error = none :=
            refreshOk_error_none store provider dbFail uid r (by rw [hrt])
          simp [hasRefreshFailBody, herr]
  · intro rec msg hfl hexp hthr
    unfold getValidToken
    rw [hfl]
    have hnot : ¬ (rec.expires_at > now) := by omega
    simp only [hnot, if_false]
    rcases hrt : refreshToken store provider dbFail uid with ⟨res, st2, pc, w⟩
    rw [hrt] at hthr
    cases res with
    | thrown m => rfl
    | ok r => simp at hthr

/-- Witness for C8: a failing provider makes the handler answer through
its catch with 500 `Failed to retrieve tokens`. -/
theorem c8_error_branch_unreachable_witness :
    (getValidToken [⟨"u", "A1", "R1", 10, 1⟩] ⟨false, "A2", none, 2000⟩
        false "u" 50).resp =
      ⟨500, { error := some "Failed to retrieve tokens" }⟩ :=
  (c8_error_branch_unreachable [⟨"u", "A1", "R1", 10, 1⟩]
      ⟨false, "A2", none, 2000⟩ false "u" 50).2.2
    ⟨"u", "A1", "R1", 10, 1⟩ "Failed to refresh token"
    (by decide) (by decide) (by decide)
